import Mathlib

/-!
# Verification of the zoom-sync device-protocol layer

Shallow embedding of the zoom-sync repository's protocol codec, board
detection, capability registry, media-upload framing and tray scheduler
dispatch logic, together with proofs checking the natural-language
specification's claims against the code.

Machine integers are modelled as `Nat` with explicit `% 2^w` masking where
the Rust code wraps (release-mode semantics of `as` casts and wrapping
shifts); byte sequences are `List Nat` whose entries are meant to be `< 256`.
-/

namespace ZoomSync

/-! ## zoom65v3 media checksum (src/boards/zoom65v3/src/checksum.rs)

The Rust source (`checksum`) keeps a 32-bit accumulator `val` (initialised
to `A = 4294967295`), xors each input byte into the top 8 bits, and runs 8
shift-and-conditionally-xor rounds per byte with the 33-bit constant
`4374732215`, masking with `A` after every round.  The trailer is the
accumulator's 4 bytes, most significant first. -/

/-- One inner round of the zoom65v3 checksum loop: shift left, xor the
constant `4374732215` when bit 31 was set, and mask to 32 bits
(`val &= 4294967295`). -/
def checksumRound (val : Nat) : Nat :=
  let v := if val &&& 2147483648 ≠ 0 then (val <<< 1) ^^^ 4374732215 else val <<< 1
  v &&& 4294967295

/-- Processing of a single byte in `checksum`: `val ^= byte << 24` followed by
eight `checksumRound`s. -/
def checksumByte (val b : Nat) : Nat :=
  checksumRound^[8] (val ^^^ (b <<< 24))

/-- `checksum` from src/boards/zoom65v3/src/checksum.rs: fold the byte
processing over the data starting from `4294967295`, and emit the four
accumulator bytes most-significant first. -/
def checksum (data : List Nat) : List Nat :=
  let val := data.foldl checksumByte 4294967295
  [(val >>> 24) &&& 255, (val >>> 16) &&& 255, (val >>> 8) &&& 255, val &&& 255]

/-- The spec's additive XOR checksum, 4-byte big-endian variant, starting the
byte sum at offset `start`: sum (mod 2^32) of the bytes from the start
offset, XOR 0xFF, encoded in 4 bytes (most significant first). -/
def additiveXorChecksumBE (start : Nat) (data : List Nat) : List Nat :=
  let s := ((data.drop start).foldl (· + ·) 0) % 4294967296
  let v := s ^^^ 255
  [(v >>> 24) &&& 255, (v >>> 16) &&& 255, (v >>> 8) &&& 255, v &&& 255]

/-- Little-endian encoding of the spec's additive XOR checksum. -/
def additiveXorChecksumLE (start : Nat) (data : List Nat) : List Nat :=
  (additiveXorChecksumBE start data).reverse

/-- The published 28-byte checksum test vector
(src/boards/zoom65v3/src/checksum.rs, `checksum_test`). -/
def checksumTestVector : List Nat :=
  [0, 0, 71, 73, 70, 56, 57, 97, 111, 0, 111, 0, 247, 0,
   0, 0, 0, 0, 0, 0, 0, 0, 0, 0, 0, 0, 0, 0]

/-- A CRC-32 round as the spec of a standard MSB-first CRC would word it:
reduce the left shift modulo 2^32 and xor the 32-bit polynomial
`0x04C11DB7 = 79764919` when the shifted-out bit 31 was set. -/
def crc32SpecRound (val : Nat) : Nat :=
  if val.testBit 31 then ((val <<< 1) % 4294967296) ^^^ 79764919
  else (val <<< 1) % 4294967296

/-- MSB-first CRC-32 with polynomial 0x04C11DB7, initial value 0xFFFFFFFF,
no reflection and no final xor, output big-endian: the standard description
of the algorithm that `checksum` implements. -/
def crc32Spec (data : List Nat) : List Nat :=
  let val := data.foldl (fun v b => crc32SpecRound^[8] (v ^^^ (b <<< 24))) 4294967295
  [(val >>> 24) &&& 255, (val >>> 16) &&& 255, (val >>> 8) &&& 255, val &&& 255]

/-! ## CRC-16/CCITT-FALSE (src/boards/tiga-protocol/src/crc.rs) -/

/-- One inner round of `crc16`: shift left (wrapping in `u16`), xor the
polynomial 0x1021 when bit 15 was set, and mask to 16 bits. -/
def crc16Round (crc : Nat) : Nat :=
  let v := if crc &&& 32768 ≠ 0 then (crc <<< 1) ^^^ 4129 else crc <<< 1
  v &&& 65535

/-- `crc16` from src/boards/tiga-protocol/src/crc.rs: initial value 0xFFFF,
per byte `crc ^= byte << 8` followed by eight rounds. -/
def crc16 (data : List Nat) : Nat :=
  data.foldl (fun crc b => crc16Round^[8] (crc ^^^ (b <<< 8))) 65535

/-! ## Zoom TKL Dyna packet builder (src/boards/zoom-tkl-dyna/src/abi.rs)

`build_packet` fills a zeroed 32-byte array: magic 0xA5 at 8, command at 9,
payload length at 11, payload bytes at 12.. (each write guarded by
`12 + i < 31`), the additive checksum `(sum of bytes 9..) ^ 0xFF` at
`12 + len` when that index is `< 32`, then header bytes 0/1/5, and finally
the CRC-16 of the whole packet (CRC field still zero) little-endian at 6/7. -/

/-- The payload copy loop of `build_packet`:
`for (i, &byte) in payload.iter().enumerate() { if 12 + i < 31 { packet[12 + i] = byte; } }`. -/
def copyPayload (packet : List Nat) (start : Nat) : List Nat → List Nat
  | [] => packet
  | b :: rest =>
      copyPayload (if 12 + start < 31 then packet.set (12 + start) b else packet) (start + 1) rest

/-- `build_packet` up to (but not including) the final CRC-16 computation and
the writes of the CRC bytes at indices 6 and 7. -/
def buildPacketPreCrc (command : Nat) (payload : List Nat) (subType : Nat) : List Nat :=
  let dataLength := payload.length
  let packet := List.replicate 32 0
  let packet := packet.set 8 165
  let packet := packet.set 9 command
  let packet := packet.set 10 0
  let packet := packet.set 11 (dataLength % 256)
  let packet := copyPayload packet 0 payload
  let cksum := (packet.drop 9).foldl (fun acc b => (acc + b) % 65536) 0
  let checksumPos := 12 + dataLength
  let packet :=
    if checksumPos < 32 then packet.set checksumPos ((cksum ^^^ 255) % 256) else packet
  let packet := packet.set 0 28
  let packet := packet.set 1 subType
  packet.set 5 ((4 + dataLength + 1) % 256)

/-- `build_packet` from src/boards/zoom-tkl-dyna/src/abi.rs. -/
def buildPacket (command : Nat) (payload : List Nat) (subType : Nat) : List Nat :=
  let packet := buildPacketPreCrc command payload subType
  let crc := crc16 packet
  let packet := packet.set 6 (crc &&& 255)
  packet.set 7 ((crc >>> 8) % 256)

/-! ## Temperature encoding (src/boards/zoom-tkl-dyna/src/types.rs) -/

/-- `encode_temperature`: `value * 10`, with bit 15 set for negative
temperatures.  The `i16` multiply and the `as u16` cast are modelled with
release-mode wrapping, i.e. reduction mod 2^16. -/
def encode_temperature (t : Int) : Nat :=
  if 0 ≤ t then (t * 10).toNat % 65536
  else ((-t) * 10).toNat % 65536 ||| 32768

/-! ## DumbFloat16 (src/boards/zoom65v3/src/float.rs)

The `f32` arithmetic of the bit-construction loop is idealised over `ℚ`;
the claims settled here only exercise the exact clamp comparisons at the
top of `new` and the range test of `try_from`, which involve no rounding. -/

/-- `DumbFloat16::MAX_F32 = 655.33997` (as written in the source; as an
`f32` literal it rounds to 655.3399658203125, which none of the statements
below depend on). -/
def MAX_F32 : ℚ := 655.33997

/-- The 16-iteration bit-construction loop of `DumbFloat16::new`:
`n <<= 1; current /= 2.0; if float >= current - 0.005 { float -= current; n |= 1; }`. -/
def dumbFloatBits : Nat → Nat → ℚ → ℚ → Nat
  | 0, n, _, _ => n
  | k + 1, n, current, float =>
      let n := n <<< 1
      let current := current / 2
      if current - 0.005 ≤ float then dumbFloatBits k (n ||| 1) current (float - current)
      else dumbFloatBits k n current float

/-- `DumbFloat16::new`: clamp at `MIN` (bits 0) for inputs `≤ 0.0`, at `MAX`
(bits 0xFFFF) for inputs `≥ MAX_F32`, otherwise run the bit-construction
loop starting from `current = 327.68 * 2.0`. -/
def dumbFloat16New (x : ℚ) : Nat :=
  if x ≤ 0 then 0
  else if MAX_F32 ≤ x then 65535
  else dumbFloatBits 16 0 (327.68 * 2) x

/-- `TryFrom<f32> for DumbFloat16`:
`(MIN_F32..=MAX_F32).contains(&value).not().then_some(DumbFloat16::new(value)).ok_or(())`. -/
def dumbFloat16TryFrom (x : ℚ) : Except Unit Nat :=
  if 0 ≤ x ∧ x ≤ MAX_F32 then .error () else .ok (dumbFloat16New x)

/-! ## Capabilities and the Board accessor registry
(src/boards/core, src/boards/zoom65v3/src/lib.rs, src/boards/zoom-tkl-dyna/src/lib.rs) -/

/-- The `Capabilities` flag set (field set as constructed in
src/src/detection.rs and src/boards/zoom-tkl-dyna/src/lib.rs). -/
structure Capabilities where
  time : Bool
  weather : Bool
  systemInfo : Bool
  screen : Bool
  image : Bool
  gif : Bool
  theme : Bool
deriving DecidableEq

/-- Names for the seven capabilities. -/
inductive Capability
  | time | weather | systemInfo | screen | image | gif | theme
deriving DecidableEq

/-- Projection of a `Capabilities` record at a named capability. -/
def Capabilities.flag (c : Capabilities) : Capability → Bool
  | .time => c.time
  | .weather => c.weather
  | .systemInfo => c.systemInfo
  | .screen => c.screen
  | .image => c.image
  | .gif => c.gif
  | .theme => c.theme

/-- The two concrete board types wired into detection (src/src/detection.rs). -/
inductive ConcreteBoard
  | zoom65v3
  | zoomTklDyna
deriving DecidableEq

/-- Capability flags of the Zoom TKL Dyna `INFO` constant
(src/boards/zoom-tkl-dyna/src/lib.rs lines 47-55). -/
def tklCapabilities : Capabilities :=
  { theme := true, time := true, weather := true, image := true,
    systemInfo := false, screen := false, gif := true }

/-- Modelled from the spec: the `capabilities` field of the zoom65v3
`BoardInfo` is absent from the sources under src/ (the zoom65v3 crate there
carries a `BoardInfo` variant that predates the `capabilities` field), so
its flags are taken from the spec's invariant that every flag mirrors the
presence of the corresponding accessor on the board type. -/
def zoom65v3Capabilities : Capabilities :=
  { time := true, weather := true, systemInfo := true, screen := true,
    image := true, gif := true, theme := false }

/-- Static capabilities per board type. -/
def capabilitiesOf : ConcreteBoard → Capabilities
  | .zoom65v3 => zoom65v3Capabilities
  | .zoomTklDyna => tklCapabilities

/-- Presence of each optional `as_*` accessor per board type, read off the
`impl Board for Zoom65v3` (overrides `as_time`, `as_weather`,
`as_system_info`, `as_screen`, `as_image`, `as_gif`; inherits the default
`None` for `as_theme`) and `impl Board for ZoomTklDyna` (overrides
`as_time`, `as_weather`, `as_image`, `as_gif`, `as_theme`; inherits the
default `None` for `as_system_info` and `as_screen`). -/
def accessorPresent : ConcreteBoard → Capability → Bool
  | .zoom65v3, .time => true
  | .zoom65v3, .weather => true
  | .zoom65v3, .systemInfo => true
  | .zoom65v3, .screen => true
  | .zoom65v3, .image => true
  | .zoom65v3, .gif => true
  | .zoom65v3, .theme => false
  | .zoomTklDyna, .time => true
  | .zoomTklDyna, .weather => true
  | .zoomTklDyna, .systemInfo => false
  | .zoomTklDyna, .screen => false
  | .zoomTklDyna, .image => true
  | .zoomTklDyna, .gif => true
  | .zoomTklDyna, .theme => true

/-! ## Board detection (src/src/detection.rs) -/

/-- The HID device fields consulted by the match predicate. -/
structure DeviceInfo where
  vendorId : Nat
  productId : Nat
  usagePage : Nat
  usage : Nat
deriving DecidableEq

/-- A board descriptor's matching fields (`BoardInfo`); `none` acts as a
wildcard. -/
structure BoardInfo where
  name : String
  vendorId : Option Nat
  productId : Option Nat
  usagePage : Option Nat
  usage : Option Nat
deriving DecidableEq

/-- `Option::is_none_or`: a `none` field always matches, a `some` field must
equal the device's value. -/
def isNoneOr (o : Option Nat) (p : Nat → Bool) : Bool :=
  match o with
  | none => true
  | some v => p v

/-- `matches` from src/src/detection.rs: every optional descriptor field is
wildcarded or must equal the device's field exactly. -/
def matchesInfo (device : DeviceInfo) (info : BoardInfo) : Bool :=
  isNoneOr info.vendorId (fun vid => device.vendorId == vid) &&
  isNoneOr info.productId (fun pid => device.productId == pid) &&
  isNoneOr info.usagePage (fun up => device.usagePage == up) &&
  isNoneOr info.usage (fun u => device.usage == u)

/-- `INFO` from src/boards/zoom65v3/src/lib.rs: vendor 0x36B5, product
0x287F, usage page 65376, usage 97, all constrained. -/
def ZOOM65V3_INFO : BoardInfo :=
  { name := "Zoom65 V3", vendorId := some 0x36B5, productId := some 0x287F,
    usagePage := some 65376, usage := some 97 }

/-- `INFO` from src/boards/zoom-tkl-dyna/src/lib.rs: vendor 0x5542, product
0xC987, usage page 65376, usage 97, all constrained. -/
def ZOOM_TKL_DYNA_INFO : BoardInfo :=
  { name := "Zoom TKL Dyna", vendorId := some 0x5542, productId := some 0xC987,
    usagePage := some 65376, usage := some 97 }

/-- Errors of the board layer (src/boards/core/src/features.rs), carrying
the message strings rendered by their `Display` implementations. -/
inductive BoardError
  | DeviceNotFound
  | CommandFailed (msg : String)
  | InvalidScreenPosition (msg : String)
  | InvalidMedia (msg : String)
  | MediaTooLarge (msg : String)
  | Hid (msg : String)
  | Io (msg : String)
deriving DecidableEq

/-- The `Display` rendering of each `BoardError` (the `#[error(...)]`
attributes in src/boards/core/src/features.rs). -/
def boardErrorMessage : BoardError → String
  | .DeviceNotFound => "device not found"
  | .CommandFailed m => "command failed: " ++ m
  | .InvalidScreenPosition m => "invalid screen position: " ++ m
  | .InvalidMedia m => "invalid media: " ++ m
  | .MediaTooLarge m => "media too large: " ++ m
  | .Hid m => "hid error: " ++ m
  | .Io m => "io error: " ++ m

/-- The selection loop of `BoardKind::as_board` for `BoardKind::Auto`
(src/src/detection.rs lines 112-132): iterate over the present devices and,
for each device, test `ZOOM65V3_INFO` then `ZOOM_TKL_DYNA_INFO`, opening
the board of the first hit; `DeviceNotFound` when the list is exhausted.
The hidapi `open` side effects are out of scope; their selection is what is
modelled. -/
def asBoardAuto : List DeviceInfo → Except BoardError ConcreteBoard
  | [] => .error .DeviceNotFound
  | d :: rest =>
      if matchesInfo d ZOOM65V3_INFO then .ok .zoom65v3
      else if matchesInfo d ZOOM_TKL_DYNA_INFO then .ok .zoomTklDyna
      else asBoardAuto rest

/-- Formalisation of the claim's wording of auto-detection: evaluate the
descriptors in declared priority order (Zoom65 V3 before Zoom TKL Dyna) and
open the board of the first descriptor whose predicate matches ANY present
device; `DeviceNotFound` when no descriptor matches any device. -/
def specDescriptorMajorDetect (devices : List DeviceInfo) : Except BoardError ConcreteBoard :=
  if devices.any (fun d => matchesInfo d ZOOM65V3_INFO) then .ok .zoom65v3
  else if devices.any (fun d => matchesInfo d ZOOM_TKL_DYNA_INFO) then .ok .zoomTklDyna
  else .error .DeviceNotFound

/-! ## Media upload progress callbacks
(src/boards/zoom65v3/src/lib.rs `upload_media`,
src/boards/zoom-tkl-dyna/src/lib.rs `upload_image`) -/

/-- `slice::chunks(24)`: split into consecutive 24-byte chunks, the last one
possibly shorter; an empty slice yields no chunks. -/
def chunks24 (l : List Nat) : List (List Nat) :=
  if h : l = [] then []
  else l.take 24 :: chunks24 (l.drop 24)
termination_by l.length
decreasing_by
  simp only [List.length_drop]
  have : 0 < l.length := List.length_pos.mpr h
  omega

/-- `slice::chunks(16)`. -/
def chunks16 (l : List Nat) : List (List Nat) :=
  if h : l = [] then []
  else l.take 16 :: chunks16 (l.drop 16)
termination_by l.length
decreasing_by
  simp only [List.length_drop]
  have : 0 < l.length := List.length_pos.mpr h
  omega

/-- The arguments passed to the progress callback by zoom65v3
`upload_media` on a fully successful upload: `cb(i)` once at the top of the
loop body for every chunk index `i`, and no further call after the loop
(the `upload_end` terminator is sent without a callback). -/
def zoom65v3UploadCbTrace (data : List Nat) : List Nat :=
  ((chunks24 data).enum.map Prod.fst)

/-- The arguments passed to the progress callback by Zoom TKL Dyna
`upload_image` on a fully successful upload: `cb(page_index)` for every
chunk, then `cb(page_count)` after the termination packet, where
`page_count = data.len().div_ceil(16)`. -/
def tklUploadCbTrace (data : List Nat) : List Nat :=
  ((chunks16 data).enum.map Prod.fst) ++ [(data.length + 16 - 1) / 16]

/-! ## Tray scheduler dispatch (src/src/tray/mod.rs)

The event-loop branches that the claims exercise are modelled as pure
transition functions on a `LoopState`; each board operation's outcome is
supplied as an `Except BoardError Unit` argument.  UI side effects
(logging, notifications, menu updates, config persistence) are dropped. -/

/-- `ConnectionStatus` (src/src/tray/commands.rs). -/
inductive ConnectionStatus
  | Disconnected
  | Connected
  | Reconnecting
deriving DecidableEq

/-- The scheduler state tracked by the claims: the connected board (if any),
the connection status, the current/default screen and the config toggles. -/
structure LoopState where
  board : Option ConcreteBoard
  connection : ConnectionStatus
  currentScreen : Option String
  initialScreen : String
  weatherEnabled : Bool
  systemInfoEnabled : Bool
  use12hrTime : Bool
  fahrenheit : Bool
deriving DecidableEq

/-- `handle_disconnect` (src/src/tray/mod.rs lines 665-673): drop the board
session and move to `Reconnecting`. -/
def handleDisconnect (st : LoopState) : LoopState :=
  { st with board := none, connection := .Reconnecting }

/-- `TrayCommand` (src/src/tray/commands.rs); media payload bytes are not
tracked. -/
inductive TrayCommand
  | SetScreen (id : String)
  | ToggleWeather
  | ToggleSystemInfo
  | Toggle12HrTime
  | ToggleFahrenheit
  | UploadImage
  | UploadGif
  | ClearImage
  | ClearGif
  | ClearAllMedia
  | ReloadConfig
  | Quit
deriving DecidableEq

/-- `CommandResult` (src/src/tray/mod.rs lines 453-459). -/
inductive CommandResult
  | Continue
  | Quit
  | ToggleReactive
deriving DecidableEq

/-- Board operations dispatched to the device by `handle_command`, recorded
in the order the calls happen. -/
inductive AppliedOp
  | setScreen (id : String)
  | timeSync
  | uploadImage
  | uploadGif
  | clearImage
  | clearGif
deriving DecidableEq

/-- `handle_command` (src/src/tray/mod.rs lines 461-663): dispatch one
command; `outcome` is the result of the board operation the command
performs (if any).  Every `Err` arm of the source merely logs
(`eprintln`/`notify_error`) and leaves the session in place; no arm calls
`handle_disconnect`. -/
def handleCommand (st : LoopState) (cmd : TrayCommand) (outcome : Except BoardError Unit) :
    LoopState × CommandResult × List AppliedOp :=
  match cmd with
  | .Quit => (st, .Quit, [])
  | .SetScreen id =>
      if id = "reactive" then (st, .ToggleReactive, [])
      else
        match st.board with
        | some b =>
            if accessorPresent b .screen then
              match outcome with
              | .ok _ =>
                  ({ st with currentScreen := some id, initialScreen := id },
                   .Continue, [.setScreen id])
              | .error _ => (st, .Continue, [.setScreen id])
            else (st, .Continue, [])
        | none => (st, .Continue, [])
  | .ToggleWeather => ({ st with weatherEnabled := !st.weatherEnabled }, .Continue, [])
  | .ToggleSystemInfo => ({ st with systemInfoEnabled := !st.systemInfoEnabled }, .Continue, [])
  | .Toggle12HrTime =>
      ({ st with use12hrTime := !st.use12hrTime }, .Continue,
       if st.board.isSome then [.timeSync] else [])
  | .ToggleFahrenheit => ({ st with fahrenheit := !st.fahrenheit }, .Continue, [])
  | .UploadImage =>
      match st.board with
      | some b =>
          if accessorPresent b .image then (st, .Continue, [.uploadImage])
          else (st, .Continue, [])
      | none => (st, .Continue, [])
  | .UploadGif =>
      match st.board with
      | some b =>
          if accessorPresent b .gif then (st, .Continue, [.uploadGif])
          else (st, .Continue, [])
      | none => (st, .Continue, [])
  | .ClearImage =>
      match st.board with
      | some b =>
          if accessorPresent b .image then (st, .Continue, [.clearImage])
          else (st, .Continue, [])
      | none => (st, .Continue, [])
  | .ClearGif =>
      match st.board with
      | some b =>
          if accessorPresent b .gif then (st, .Continue, [.clearGif])
          else (st, .Continue, [])
      | none => (st, .Continue, [])
  | .ClearAllMedia =>
      match st.board with
      | some b =>
          ((st, .Continue,
            (if accessorPresent b .image then [AppliedOp.clearImage] else []) ++
            (if accessorPresent b .gif then [AppliedOp.clearGif] else [])))
      | none => (st, .Continue, [])
  | .ReloadConfig => (st, .Continue, [])

/-- Sequential FIFO processing of the queued commands by the `select!`
loop's command branch (src/src/tray/mod.rs lines 232-241): one `recv` per
iteration, stopping at `Quit`.  Each queue entry carries the outcome of the
board operation it triggers. -/
def drainCommands (st : LoopState) :
    List (TrayCommand × Except BoardError Unit) → LoopState × List AppliedOp
  | [] => (st, [])
  | (cmd, outcome) :: rest =>
      match handleCommand st cmd outcome with
      | (st1, .Quit, ops) => (st1, ops)
      | (st1, _, ops) =>
          let r := drainCommands st1 rest
          (r.1, ops ++ r.2)

/-- Substring test on character lists (`str::contains`). -/
def listContainsSub (hay needle : List Char) : Bool :=
  if needle.isPrefixOf hay then true
  else
    match hay with
    | [] => false
    | _ :: t => listContainsSub t needle

/-- `str::contains`: `strContains hay needle` is true when `needle` occurs
as a contiguous substring of `hay`. -/
def strContains (hay needle : String) : Bool :=
  listContainsSub hay.data needle.data

/-- The weather branch of the `select!` loop (src/src/tray/mod.rs lines
371-384): guarded on a connected board and the weather toggle; on error the
session is torn down exactly when `e.to_string().contains("device")`. -/
def weatherTick (st : LoopState) (outcome : Except BoardError Unit) : LoopState :=
  match st.board with
  | some _ =>
      if st.weatherEnabled then
        match outcome with
        | .ok _ => st
        | .error e =>
            if strContains (boardErrorMessage e) "device" then handleDisconnect st else st
      else st
  | none => st

/-- The system-info branch (src/src/tray/mod.rs lines 387-404): same error
policy as the weather branch, guarded on the system-info toggle. -/
def systemTick (st : LoopState) (outcome : Except BoardError Unit) : LoopState :=
  match st.board with
  | some _ =>
      if st.systemInfoEnabled then
        match outcome with
        | .ok _ => st
        | .error e =>
            if strContains (boardErrorMessage e) "device" then handleDisconnect st else st
      else st
  | none => st

/-- The hourly time-sync branch (src/src/tray/mod.rs lines 407-416): same
error policy, guarded only on a connected board. -/
def timeTick (st : LoopState) (outcome : Except BoardError Unit) : LoopState :=
  match st.board with
  | some _ =>
      match outcome with
      | .ok _ => st
      | .error e =>
          if strContains (boardErrorMessage e) "device" then handleDisconnect st else st
  | none => st

/-! ## Helper lemmas -/

theorem checksumRound_eq_specRound (v : Nat) : checksumRound v = crc32SpecRound v := by
  have hm : (4294967295 : Nat) = 2 ^ 32 - 1 := by norm_num
  have hmask : ∀ x : Nat, x &&& 4294967295 = x % 4294967296 := by
    intro x
    rw [hm, Nat.and_pow_two_sub_one_eq_mod]
  have h31 : (2147483648 : Nat) = 2 ^ 31 := by norm_num
  have hcond : (v &&& 2147483648 ≠ 0) ↔ v.testBit 31 = true := by
    rw [h31, Nat.and_two_pow]
    cases h : v.testBit 31 <;> simp
  unfold checksumRound crc32SpecRound
  by_cases h : v.testBit 31 = true
  · rw [if_pos (hcond.mpr h), if_pos h]
    have hsplit : (4374732215 : Nat) = 79764919 ^^^ 4294967296 := by decide
    rw [hsplit, ← Nat.xor_assoc, hm, Nat.and_xor_distrib_right, Nat.and_xor_distrib_right]
    rw [← hm, hmask]
    have h1 : (79764919 : Nat) &&& 4294967295 = 79764919 := by decide
    have h2 : (4294967296 : Nat) &&& 4294967295 = 0 := by decide
    rw [h1, h2, Nat.xor_zero]
  · rw [if_neg (fun hc => h (hcond.mp hc)), if_neg h, hmask]

theorem checksum_eq_crc32Spec (data : List Nat) : checksum data = crc32Spec data := by
  have hfun : checksumRound = crc32SpecRound := funext checksumRound_eq_specRound
  have hbyte : checksumByte = fun v b => crc32SpecRound^[8] (v ^^^ (b <<< 24)) := by
    funext v b
    unfold checksumByte
    rw [hfun]
  unfold checksum crc32Spec
  rw [hbyte]

theorem getD_set_ne (l : List Nat) {i j : Nat} (h : i ≠ j) (a : Nat) :
    (l.set i a).getD j 0 = l.getD j 0 := by
  simp [List.getD_eq_getElem?_getD, List.getElem?_set_ne h]

theorem getD_set_self (l : List Nat) {i : Nat} (h : i < l.length) (a : Nat) :
    (l.set i a).getD i 0 = a := by
  simp [List.getD_eq_getElem?_getD, List.getElem?_set_self h]

theorem set_zero_of_getD_zero : ∀ (l : List Nat) (i : Nat), l.getD i 0 = 0 → l.set i 0 = l
  | [], _, _ => rfl
  | a :: t, 0, h => by simp_all [List.getD]
  | a :: t, i + 1, h => by
      simp only [List.set]
      rw [set_zero_of_getD_zero t i (by simpa [List.getD] using h)]

theorem copyPayload_length : ∀ (pl : List Nat) (pkt : List Nat) (start : Nat),
    (copyPayload pkt start pl).length = pkt.length
  | [], _, _ => rfl
  | b :: rest, pkt, start => by
      simp only [copyPayload]
      rw [copyPayload_length rest]
      split <;> simp

theorem copyPayload_getD_lt : ∀ (pl : List Nat) (pkt : List Nat) (start j : Nat),
    j < 12 + start → (copyPayload pkt start pl).getD j 0 = pkt.getD j 0
  | [], _, _, _, _ => rfl
  | b :: rest, pkt, start, j, hj => by
      simp only [copyPayload]
      rw [copyPayload_getD_lt rest _ (start + 1) j (by omega)]
      split
      · exact getD_set_ne pkt (by omega) b
      · rfl

theorem copyPayload_getD_payload : ∀ (pl : List Nat) (pkt : List Nat) (start j : Nat),
    pkt.length = 32 → j < pl.length → 12 + start + j < 31 →
    (copyPayload pkt start pl).getD (12 + start + j) 0 = pl.getD j 0
  | [], _, _, j, _, hj, _ => absurd hj (by simp)
  | b :: rest, pkt, start, 0, hlen, _, hlt => by
      simp only [copyPayload, if_pos (show 12 + start < 31 by omega)]
      rw [copyPayload_getD_lt rest _ (start + 1) _ (by omega)]
      simpa using getD_set_self pkt (by omega) b
  | b :: rest, pkt, start, j + 1, hlen, hj, hlt => by
      simp only [copyPayload]
      have : 12 + start + (j + 1) = 12 + (start + 1) + j := by omega
      rw [this]
      rw [copyPayload_getD_payload rest _ (start + 1) j (by split <;> simp [hlen])
        (by simpa using hj) (by omega)]
      rfl

theorem buildPacketPreCrc_length (c : Nat) (pl : List Nat) (s : Nat) :
    (buildPacketPreCrc c pl s).length = 32 := by
  simp only [buildPacketPreCrc]
  split <;> simp [copyPayload_length]

theorem buildPacketPreCrc_getD67 (c : Nat) (pl : List Nat) (s : Nat) {j : Nat}
    (hj : j = 6 ∨ j = 7) : (buildPacketPreCrc c pl s).getD j 0 = 0 := by
  have hj12 : j < 12 := by omega
  simp only [buildPacketPreCrc]
  rw [getD_set_ne _ (by omega), getD_set_ne _ (by omega), getD_set_ne _ (by omega)]
  have hbase : ∀ pkt : List Nat,
      (if 12 + pl.length < 32 then
          pkt.set (12 + pl.length)
            (((pkt.drop 9).foldl (fun acc b => (acc + b) % 65536) 0 ^^^ 255) % 256)
        else pkt).getD j 0 = pkt.getD j 0 := by
    intro pkt
    split
    · exact getD_set_ne pkt (by omega) _
    · rfl
  rw [hbase]
  rw [copyPayload_getD_lt _ _ 0 j (by omega)]
  rw [getD_set_ne _ (by omega), getD_set_ne _ (by omega), getD_set_ne _ (by omega),
    getD_set_ne _ (by omega)]
  rcases hj with h | h <;> subst h <;> rfl

theorem buildPacket_eq_setCrc (c : Nat) (pl : List Nat) (s : Nat) :
    buildPacket c pl s =
      ((buildPacketPreCrc c pl s).set 6 (crc16 (buildPacketPreCrc c pl s) &&& 255)).set 7
        (crc16 (buildPacketPreCrc c pl s) >>> 8 % 256) := rfl

theorem buildPacket_zero_crc_field (c : Nat) (pl : List Nat) (s : Nat) :
    ((buildPacket c pl s).set 6 0).set 7 0 = buildPacketPreCrc c pl s := by
  have h67 : (6 : Nat) ≠ 7 := by omega
  rw [buildPacket_eq_setCrc]
  rw [@List.set_comm Nat (crc16 (buildPacketPreCrc c pl s) &&& 255)
    (crc16 (buildPacketPreCrc c pl s) >>> 8 % 256) 6 7 (buildPacketPreCrc c pl s) h67]
  rw [@List.set_set Nat (crc16 (buildPacketPreCrc c pl s) &&& 255) 0
    ((buildPacketPreCrc c pl s).set 7 (crc16 (buildPacketPreCrc c pl s) >>> 8 % 256)) 6]
  rw [@List.set_comm Nat 0 0 6 7
    ((buildPacketPreCrc c pl s).set 7 (crc16 (buildPacketPreCrc c pl s) >>> 8 % 256)) h67]
  rw [@List.set_set Nat (crc16 (buildPacketPreCrc c pl s) >>> 8 % 256) 0
    (buildPacketPreCrc c pl s) 7]
  rw [set_zero_of_getD_zero _ 7 (buildPacketPreCrc_getD67 c pl s (Or.inr rfl))]
  rw [set_zero_of_getD_zero _ 6 (buildPacketPreCrc_getD67 c pl s (Or.inl rfl))]

theorem chunks24_length (l : List Nat) : (chunks24 l).length = (l.length + 23) / 24 := by
  induction l using chunks24.induct with
  | case1 => simp [chunks24]
  | case2 l h ih =>
      rw [chunks24, dif_neg h]
      have hpos : 0 < l.length := List.length_pos.mpr h
      simp only [List.length_cons, ih, List.length_drop]
      omega

theorem chunks16_length (l : List Nat) : (chunks16 l).length = (l.length + 15) / 16 := by
  induction l using chunks16.induct with
  | case1 => simp [chunks16]
  | case2 l h ih =>
      rw [chunks16, dif_neg h]
      have hpos : 0 < l.length := List.length_pos.mpr h
      simp only [List.length_cons, ih, List.length_drop]
      omega

/-! ## Claim C1 -/

set_option maxRecDepth 100000 in
/-- C1, counterexample: the zoom65v3 media checksum of the published 28-byte
vector is `[94, 148, 189, 206]` (as the code's own test asserts), while the
spec's additive XOR checksum — for every possible start offset of that
vector, in either byte order — never produces that value: the trailer is
not an additive sum-and-xor checksum. -/
theorem c1_counterexample :
    checksum checksumTestVector = [94, 148, 189, 206] ∧
    ((List.range 29).all fun k =>
      (additiveXorChecksumBE k checksumTestVector != [94, 148, 189, 206]) &&
      (additiveXorChecksumLE k checksumTestVector != [94, 148, 189, 206])) = true := by
  constructor
  · decide
  · decide

set_option maxRecDepth 100000 in
/-- C1 (amended): the 4-byte checksum trailer used for zoom65v3 media
uploads is the MSB-first CRC-32 with polynomial 0x04C11DB7, initial value
0xFFFFFFFF, no reflection and no final xor, emitted big-endian; it agrees
with the published vector for the 28-byte test sequence, whose checksum is
`[94, 148, 189, 206]`. -/
theorem c1_checksum_is_crc32 :
    (∀ data : List Nat, checksum data = crc32Spec data) ∧
    checksum checksumTestVector = [94, 148, 189, 206] :=
  ⟨checksum_eq_crc32Spec, by decide⟩

/-! ## Claim C2 -/

set_option maxRecDepth 100000 in
/-- C2, counterexample: for the datetime packet (command 0x38, the 10-byte
payload for 2024-01-01T00:00:00 Monday, sub-type 0x03), the CRC bytes 6-7 of
`build_packet` are NOT the little-endian CRC-16 of packet bytes 0 through 5:
the code computes the CRC over the whole 32-byte frame (with the CRC field
still zero). -/
theorem c2_counterexample :
    ¬((buildPacket 56 [0, 1, 7, 232, 1, 1, 0, 0, 0, 1] 3).getD 6 0 =
        crc16 ((buildPacket 56 [0, 1, 7, 232, 1, 1, 0, 0, 0, 1] 3).take 6) &&& 255 ∧
      (buildPacket 56 [0, 1, 7, 232, 1, 1, 0, 0, 0, 1] 3).getD 7 0 =
        crc16 ((buildPacket 56 [0, 1, 7, 232, 1, 1, 0, 0, 0, 1] 3).take 6) >>> 8 % 256) := by
  decide

set_option maxRecDepth 100000 in
/-- C2 (amended): for every command byte, sub-type byte and payload, bytes
6-7 of the 32-byte packet returned by `build_packet` are the little-endian
encoding of the CRC-16/CCITT-FALSE checksum computed over the entire
32-byte frame with the CRC field zeroed (not over bytes 0-5 only); and
`crc16` reproduces the published check value 0x29B1 for the ASCII string
"123456789". -/
theorem c2_crc_over_full_frame :
    (∀ (cmd : Nat) (payload : List Nat) (subType : Nat),
      (buildPacket cmd payload subType).getD 6 0 =
        crc16 (((buildPacket cmd payload subType).set 6 0).set 7 0) &&& 255 ∧
      (buildPacket cmd payload subType).getD 7 0 =
        crc16 (((buildPacket cmd payload subType).set 6 0).set 7 0) >>> 8 % 256) ∧
    crc16 [49, 50, 51, 52, 53, 54, 55, 56, 57] = 10673 := by
  constructor
  · intro cmd payload subType
    rw [buildPacket_zero_crc_field, buildPacket_eq_setCrc]
    have hlen : (buildPacketPreCrc cmd payload subType).length = 32 :=
      buildPacketPreCrc_length cmd payload subType
    constructor
    · rw [getD_set_ne _ (by omega), getD_set_self _ (by omega)]
    · rw [getD_set_self _ (by simp [hlen])]
  · decide

/-! ## Claim C8 -/

set_option maxRecDepth 100000 in
/-- C8, counterexample: a 20-byte payload exceeds the 19-byte frame capacity
of `build_packet`, and is NOT rejected: the frame is still built (32 bytes),
its byte 31 is 0 while the 20th payload byte is 20 — the excess byte is
silently dropped. -/
theorem c8_counterexample :
    (buildPacket 252 [1, 2, 3, 4, 5, 6, 7, 8, 9, 10, 11, 12, 13, 14, 15, 16, 17, 18, 19, 20]
        2).length = 32 ∧
    (buildPacket 252 [1, 2, 3, 4, 5, 6, 7, 8, 9, 10, 11, 12, 13, 14, 15, 16, 17, 18, 19, 20]
        2).getD 31 0 = 0 ∧
    [1, 2, 3, 4, 5, 6, 7, 8, 9, 10, 11, 12, 13, 14, 15, 16, 17, 18, 19, 20].getD 19 0 = 20 := by
  refine ⟨by decide, by decide, by decide⟩

/-- C8 (amended): `build_packet` copies the payload verbatim into the frame
for every payload of at most 19 bytes (the remaining frame capacity):
packet bytes 12 through 12+len-1 equal the payload bytes.  Payloads longer
than 19 bytes are not rejected; the copy guard `12 + i < 31` silently drops
their excess bytes (see the counterexample). -/
theorem c8_payload_copied_verbatim (cmd : Nat) (payload : List Nat) (subType : Nat)
    (hlen : payload.length ≤ 19) (i : Nat) (hi : i < payload.length) :
    (buildPacket cmd payload subType).getD (12 + i) 0 = payload.getD i 0 := by
  rw [buildPacket_eq_setCrc]
  rw [getD_set_ne _ (by omega), getD_set_ne _ (by omega)]
  simp only [buildPacketPreCrc]
  rw [getD_set_ne _ (by omega), getD_set_ne _ (by omega), getD_set_ne _ (by omega)]
  have hbase : ∀ pkt : List Nat,
      (if 12 + payload.length < 32 then
          pkt.set (12 + payload.length)
            (((pkt.drop 9).foldl (fun acc b => (acc + b) % 65536) 0 ^^^ 255) % 256)
        else pkt).getD (12 + i) 0 = pkt.getD (12 + i) 0 := by
    intro pkt
    split
    · exact getD_set_ne pkt (by omega) _
    · rfl
  rw [hbase]
  exact copyPayload_getD_payload payload _ 0 i (by simp) hi (by omega)

/-- C8, witness: the amended theorem applied to a concrete 3-byte payload. -/
theorem c8_payload_copied_verbatim_w :
    (buildPacket 56 [1, 2, 3] 2).getD (12 + 2) 0 = [1, 2, 3].getD 2 0 :=
  c8_payload_copied_verbatim 56 [1, 2, 3] 2 (by decide) 2 (by decide)

/-! ## Claim C7 -/

/-- C7: for every concrete board type and every capability, the board's
static Capabilities flag is true exactly when the corresponding optional
accessor on that board type is present; presence is static per board type.
(The Zoom TKL Dyna flags come from its `INFO` constant in the source; the
zoom65v3 flags are modelled from the spec, see `zoom65v3Capabilities`.) -/
theorem c7_capability_invariant :
    ∀ (b : ConcreteBoard) (c : Capability),
      accessorPresent b c = (capabilitiesOf b).flag c := by
  intro b c
  cases b <;> cases c <;> rfl

/-! ## Claim C9 -/

/-- C9, counterexample: `encode_temperature 3277 = 32770`, whose bit 15 is
set although 3277 is not negative — the claim's "bit 15 set exactly when
the temperature is negative" fails for inputs with |t| ≥ 3277. -/
theorem c9_counterexample :
    encode_temperature 3277 = 32770 ∧ Nat.testBit 32770 15 = true ∧
    ¬(3277 : Int) < 0 := by
  refine ⟨by decide, by decide, by decide⟩

/-- C9 (amended): for every i16 temperature t with |t| ≤ 3276 (so that
|t|·10 < 2^15), `encode_temperature t` equals |t|·10 with bit 15 or-ed in
exactly when t is negative, and bit 15 of the result is set exactly when t
is negative; in particular `encode_temperature 25 = 250`,
`encode_temperature 0 = 0` and `encode_temperature (-10) = 0x8064 = 32868`.
For larger magnitudes the i16 arithmetic wraps and bit 15 no longer flags
the sign (see the counterexample at t = 3277). -/
theorem c9_encode_temperature :
    (∀ t : Int, -3276 ≤ t → t ≤ 3276 →
      encode_temperature t = (10 * t.natAbs ||| if t < 0 then 32768 else 0) ∧
      (encode_temperature t).testBit 15 = decide (t < 0)) ∧
    encode_temperature 25 = 250 ∧ encode_temperature 0 = 0 ∧
    encode_temperature (-10) = 32868 := by
  refine ⟨?_, by decide, by decide, by decide⟩
  intro t h1 h2
  have hpow : (2 : Nat) ^ 15 = 32768 := by norm_num
  by_cases ht : 0 ≤ t
  · have hm : (t * 10).toNat = 10 * t.natAbs := by omega
    have hlt : 10 * t.natAbs < 32768 := by omega
    have hneg : ¬t < 0 := by omega
    have hbit : (10 * t.natAbs).testBit 15 = false :=
      Nat.testBit_eq_false_of_lt (by omega)
    rw [encode_temperature, if_pos ht, hm, Nat.mod_eq_of_lt (by omega), if_neg hneg]
    exact ⟨by rw [Nat.or_zero], by rw [hbit, decide_eq_false hneg]⟩
  · have hm : ((-t) * 10).toNat = 10 * t.natAbs := by omega
    have hlt : 10 * t.natAbs < 32768 := by omega
    have hneg : t < 0 := by omega
    have hbit : (10 * t.natAbs).testBit 15 = false :=
      Nat.testBit_eq_false_of_lt (by omega)
    rw [encode_temperature, if_neg ht, hm, Nat.mod_eq_of_lt (by omega), if_pos hneg]
    refine ⟨rfl, ?_⟩
    rw [Nat.testBit_or, hbit, decide_eq_true hneg]
    decide

/-- C9, witness: the amended theorem applied at t = -10. -/
theorem c9_encode_temperature_w :
    encode_temperature (-10) =
      (10 * Int.natAbs (-10) ||| if (-10 : Int) < 0 then 32768 else 0) :=
  (c9_encode_temperature.1 (-10) (by decide) (by decide)).1

/-! ## Claim C10 -/

/-- C10: `DumbFloat16::try_from` returns `Err(())` for every input inside
the representable range 0.0 ..= MAX_F32 and `Ok(DumbFloat16::new x)` for
every input outside it — the inverse of the expected range check — while
the clamping constructor `new` maps out-of-range inputs to MIN (0) or MAX
(0xFFFF). -/
theorem c10_tryFrom_inverted :
    ∀ x : ℚ,
      ((0 ≤ x ∧ x ≤ MAX_F32) → dumbFloat16TryFrom x = .error ()) ∧
      (¬(0 ≤ x ∧ x ≤ MAX_F32) → dumbFloat16TryFrom x = .ok (dumbFloat16New x)) ∧
      (x < 0 → dumbFloat16New x = 0) ∧
      (MAX_F32 < x → dumbFloat16New x = 65535) := by
  intro x
  have hmaxPos : (0 : ℚ) < MAX_F32 := by norm_num [MAX_F32]
  refine ⟨fun h => ?_, fun h => ?_, fun h => ?_, fun h => ?_⟩
  · rw [dumbFloat16TryFrom, if_pos h]
  · rw [dumbFloat16TryFrom, if_neg h]
  · rw [dumbFloat16New, if_pos (le_of_lt h)]
  · rw [dumbFloat16New, if_neg (by linarith), if_pos (le_of_lt h)]

/-- C10, witness: the theorem applied at the in-range input 100 and the
out-of-range input 700. -/
theorem c10_tryFrom_inverted_w :
    dumbFloat16TryFrom 100 = .error () ∧
    dumbFloat16TryFrom 700 = .ok (dumbFloat16New 700) ∧
    dumbFloat16New 700 = 65535 :=
  ⟨(c10_tryFrom_inverted 100).1 (by norm_num [MAX_F32]),
   (c10_tryFrom_inverted 700).2.1 (by norm_num [MAX_F32]),
   (c10_tryFrom_inverted 700).2.2.2 (by norm_num [MAX_F32])⟩

/-! ## Claim C5 -/

/-- C5, counterexample: with a Zoom TKL Dyna device enumerated before a
Zoom65 V3 device, `as_board` (Auto) opens the TKL Dyna — the loop is
device-major — whereas the claim's descriptor-major order (Zoom65 V3
descriptor first, matched against any present device) would open the
Zoom65 V3. -/
theorem c5_counterexample :
    asBoardAuto
        [⟨0x5542, 0xC987, 65376, 97⟩, ⟨0x36B5, 0x287F, 65376, 97⟩] =
      .ok .zoomTklDyna ∧
    specDescriptorMajorDetect
        [⟨0x5542, 0xC987, 65376, 97⟩, ⟨0x36B5, 0x287F, 65376, 97⟩] =
      .ok .zoom65v3 ∧
    ConcreteBoard.zoomTklDyna ≠ ConcreteBoard.zoom65v3 :=
  ⟨rfl, rfl, by decide⟩

/-- C5 (amended): auto-detection iterates over the present devices in
enumeration order and, for each device, evaluates the descriptors in their
declared priority order (Zoom65 V3 before Zoom TKL Dyna); it opens the
board of the first matching (device, descriptor) pair in this device-major
order, and yields `DeviceNotFound` exactly when no descriptor matches any
device.  The match predicate treats each optional descriptor field as a
wildcard when absent and as an exact equality constraint when present. -/
theorem c5_device_major_detection :
    (∀ devs : List DeviceInfo,
      asBoardAuto devs =
        match devs.find? (fun d =>
            matchesInfo d ZOOM65V3_INFO || matchesInfo d ZOOM_TKL_DYNA_INFO) with
        | some d =>
            .ok (if matchesInfo d ZOOM65V3_INFO then .zoom65v3 else .zoomTklDyna)
        | none => .error .DeviceNotFound) ∧
    (∀ (dev : DeviceInfo) (info : BoardInfo),
      matchesInfo dev info = true ↔
        ((∀ v, info.vendorId = some v → dev.vendorId = v) ∧
         (∀ v, info.productId = some v → dev.productId = v) ∧
         (∀ v, info.usagePage = some v → dev.usagePage = v) ∧
         (∀ v, info.usage = some v → dev.usage = v))) := by
  constructor
  · intro devs
    induction devs with
    | nil => rfl
    | cons d rest ih =>
        by_cases h1 : matchesInfo d ZOOM65V3_INFO = true
        · simp [asBoardAuto, List.find?, h1]
        · by_cases h2 : matchesInfo d ZOOM_TKL_DYNA_INFO = true
          · simp [asBoardAuto, List.find?, h1, h2]
          · simp only [asBoardAuto, List.find?]
            simp [h1, h2, ih]
  · intro dev info
    rcases info with ⟨n, vid, pid, up, u⟩
    cases vid <;> cases pid <;> cases up <;> cases u <;>
      simp [matchesInfo, isNoneOr]
      <;> aesop

/-- C5, witness: the match predicate accepts the Zoom65 V3 device for the
Zoom65 V3 descriptor, via the exact-equality characterisation. -/
theorem c5_device_major_detection_w :
    matchesInfo ⟨0x36B5, 0x287F, 65376, 97⟩ ZOOM65V3_INFO = true :=
  (c5_device_major_detection.2 ⟨0x36B5, 0x287F, 65376, 97⟩ ZOOM65V3_INFO).mpr
    (by simp [ZOOM65V3_INFO])

/-! ## Claim C3 -/

/-- C3, counterexample: a commanded SetScreen that fails with an HID
transport error is only logged — `handle_command` leaves the session and
the Connected state untouched, contradicting the claim that every I/O
failure on a commanded operation immediately destroys the session. -/
theorem c3_counterexample :
    (handleCommand
        ⟨some .zoom65v3, .Connected, none, "meletrix", true, true, false, false⟩
        (.SetScreen "cpu") (.error (.Hid "hidapi: transport failure"))).1 =
      ⟨some .zoom65v3, .Connected, none, "meletrix", true, true, false, false⟩ ∧
    (⟨some .zoom65v3, .Connected, none, "meletrix", true, true, false, false⟩ :
        LoopState).connection = .Connected := by
  refine ⟨by decide, by decide⟩

/-- C3 (amended): scheduled periodic operations (weather, system info, time
sync) tear down the session and move to Reconnecting exactly when the
error's display message contains the substring "device" (which covers
protocol-ack failures, whose message is "command failed: device rejected
command", but not logically local failures such as an unknown WMO code or
an invalid screen id); commanded operations dispatched by `handle_command`
never tear down the session regardless of outcome — their failures are only
logged. -/
theorem c3_failure_teardown_policy :
    (∀ (st : LoopState) (e : BoardError), st.board.isSome = true →
      st.weatherEnabled = true → strContains (boardErrorMessage e) "device" = true →
      weatherTick st (.error e) = handleDisconnect st) ∧
    (∀ (st : LoopState) (e : BoardError), st.board.isSome = true →
      st.systemInfoEnabled = true → strContains (boardErrorMessage e) "device" = true →
      systemTick st (.error e) = handleDisconnect st) ∧
    (∀ (st : LoopState) (e : BoardError), st.board.isSome = true →
      strContains (boardErrorMessage e) "device" = true →
      timeTick st (.error e) = handleDisconnect st) ∧
    (∀ (st : LoopState) (e : BoardError),
      strContains (boardErrorMessage e) "device" = false →
      weatherTick st (.error e) = st ∧ systemTick st (.error e) = st ∧
      timeTick st (.error e) = st) ∧
    (∀ (st : LoopState) (cmd : TrayCommand) (outcome : Except BoardError Unit),
      (handleCommand st cmd outcome).1.board = st.board ∧
      (handleCommand st cmd outcome).1.connection = st.connection) ∧
    strContains (boardErrorMessage (.CommandFailed "device rejected command"))
      "device" = true ∧
    strContains (boardErrorMessage (.CommandFailed "unknown WMO code"))
      "device" = false ∧
    strContains (boardErrorMessage (.InvalidScreenPosition "nosuch"))
      "device" = false := by
  refine ⟨?_, ?_, ?_, ?_, ?_, by decide, by decide, by decide⟩
  · intro st e h1 h2 h3
    cases hb : st.board with
    | none => rw [hb] at h1; simp at h1
    | some b => simp [weatherTick, hb, h2, h3]
  · intro st e h1 h2 h3
    cases hb : st.board with
    | none => rw [hb] at h1; simp at h1
    | some b => simp [systemTick, hb, h2, h3]
  · intro st e h1 h3
    cases hb : st.board with
    | none => rw [hb] at h1; simp at h1
    | some b => simp [timeTick, hb, h3]
  · intro st e h
    refine ⟨?_, ?_, ?_⟩ <;> cases hb : st.board <;>
      simp [weatherTick, systemTick, timeTick, hb, h]
  · intro st cmd outcome
    cases cmd <;> cases outcome <;> cases hb : st.board <;>
      simp only [handleCommand, hb] <;> (repeat' split) <;> simp [hb]

/-- C3, witness: the amended policy applied to a concrete connected state
and the ack-failure error. -/
theorem c3_failure_teardown_policy_w :
    weatherTick ⟨some .zoom65v3, .Connected, none, "meletrix", true, true, false, false⟩
        (.error (.CommandFailed "device rejected command")) =
      handleDisconnect
        ⟨some .zoom65v3, .Connected, none, "meletrix", true, true, false, false⟩ :=
  c3_failure_teardown_policy.1
    ⟨some .zoom65v3, .Connected, none, "meletrix", true, true, false, false⟩
    (.CommandFailed "device rejected command") (by decide) (by decide) (by decide)

/-! ## Claim C4 -/

/-- C4, counterexample: three SetScreen commands with different target ids
enqueued before the loop drains the queue are ALL applied to the board,
in FIFO order, each exactly once — not de-duplicated to the last one.  The
final screen is the last id, but the board received three set-screen
operations. -/
theorem c4_counterexample :
    (drainCommands
        ⟨some .zoom65v3, .Connected, none, "meletrix", true, true, false, false⟩
        [(.SetScreen "cpu", .ok ()), (.SetScreen "gpu", .ok ()),
         (.SetScreen "time", .ok ())]).2 =
      [.setScreen "cpu", .setScreen "gpu", .setScreen "time"] ∧
    (drainCommands
        ⟨some .zoom65v3, .Connected, none, "meletrix", true, true, false, false⟩
        [(.SetScreen "cpu", .ok ()), (.SetScreen "gpu", .ok ()),
         (.SetScreen "time", .ok ())]).2 ≠ [.setScreen "time"] ∧
    (drainCommands
        ⟨some .zoom65v3, .Connected, none, "meletrix", true, true, false, false⟩
        [(.SetScreen "cpu", .ok ()), (.SetScreen "gpu", .ok ()),
         (.SetScreen "time", .ok ())]).1.currentScreen = some "time" := by
  refine ⟨by decide, by decide, by decide⟩

/-- C4 (amended): the command queue is drained strictly FIFO with no
de-duplication: for a connected board with the screen capability, a burst
of SetScreen commands (none named "reactive") is applied to the board one
by one in order, each exactly once, and the final current screen is the
last id of the burst. -/
theorem c4_fifo_no_dedup (st : LoopState) (b : ConcreteBoard) (ids : List String)
    (hb : st.board = some b) (hcap : accessorPresent b .screen = true)
    (hr : ∀ id ∈ ids, id ≠ "reactive") :
    (drainCommands st (ids.map fun id => (TrayCommand.SetScreen id, .ok ()))).2 =
      ids.map AppliedOp.setScreen ∧
    (drainCommands st
        (ids.map fun id => (TrayCommand.SetScreen id, .ok ()))).1.currentScreen =
      (ids.getLast?).elim st.currentScreen some := by
  induction ids generalizing st with
  | nil => simp [drainCommands]
  | cons id rest ih =>
      have hid : id ≠ "reactive" := hr id (by simp)
      have hstep :
          handleCommand st (.SetScreen id) (.ok ()) =
            ({ st with currentScreen := some id, initialScreen := id },
             .Continue, [.setScreen id]) := by
        simp [handleCommand, hid, hb, hcap]
      have hrest := ih { st with currentScreen := some id, initialScreen := id }
        (by simpa using hb) (fun x hx => hr x (by simp [hx]))
      simp only [List.map_cons, drainCommands, hstep]
      refine ⟨by simp [hrest.1], ?_⟩
      rw [hrest.2]
      cases rest with
      | nil => simp
      | cons r rs =>
          rw [List.getLast?_cons_cons]
          cases hy : (r :: rs).getLast? with
          | none => simp [List.getLast?_eq_none_iff] at hy
          | some y => simp [hy]

/-- C4, witness: the amended theorem applied to a concrete two-command
burst. -/
theorem c4_fifo_no_dedup_w :
    (drainCommands
        ⟨some .zoom65v3, .Connected, none, "meletrix", true, true, false, false⟩
        (["cpu", "gpu"].map fun id => (TrayCommand.SetScreen id, .ok ()))).2 =
      ["cpu", "gpu"].map AppliedOp.setScreen :=
  (c4_fifo_no_dedup
    ⟨some .zoom65v3, .Connected, none, "meletrix", true, true, false, false⟩
    .zoom65v3 ["cpu", "gpu"] rfl (by decide) (by decide)).1


/-! ## Claim C6 -/

/-- C6, counterexample: on zoom65v3, a successful upload of a 24-byte buffer
(one 24-byte chunk, so chunk_count = 1) invokes the progress callback
exactly once — with argument 0 — not chunk_count + 1 = 2 times: there is no
terminator callback on this board. -/
theorem c6_counterexample :
    (zoom65v3UploadCbTrace (List.replicate 24 0)).length = 1 ∧
    ((List.replicate 24 (0 : Nat)).length + 23) / 24 + 1 = 2 := by
  constructor
  · simp [zoom65v3UploadCbTrace, List.enum_map_fst, chunks24_length]
  · decide

/-- C6 (amended): on a fully successful upload, the Zoom TKL Dyna routine
invokes the progress callback exactly chunk_count + 1 times (once per
16-byte chunk index, plus once with chunk_count for the terminator), while
the zoom65v3 routine invokes it exactly chunk_count times (once per 24-byte
chunk index, with no terminator call). -/
theorem c6_progress_callbacks (data : List Nat) :
    zoom65v3UploadCbTrace data = List.range ((data.length + 23) / 24) ∧
    tklUploadCbTrace data =
      List.range ((data.length + 15) / 16) ++ [(data.length + 15) / 16] := by
  constructor
  · unfold zoom65v3UploadCbTrace
    rw [List.enum_map_fst, chunks24_length]
  · unfold tklUploadCbTrace
    rw [List.enum_map_fst, chunks16_length]
    have h : data.length + 16 - 1 = data.length + 15 := by omega
    rw [h]


end ZoomSync
